import Mathlib

/-!
Verification development for the Course_Generator backend service.

The Python sources are shallowly embedded as Lean definitions:
pydantic models become structures together with an explicit `validate`
function replaying the declared field constraints; the mutable
`TypedDict` workflow states become immutable records threaded through
explicit step functions; Python exceptions become `Except String`;
Python object references held in the course-generation state (the
`current_module` / `current_lesson` fields) become indices into the
course structure, with `list.index` modelled by `List.indexOf`
(CPython's `list.index` compares with `==`, which on the dataclasses
involved is field-by-field equality, so `List.indexOf` over values
with decidable equality is the faithful translation).
-/

/-- Decidable equality on `Except`, used to evaluate concrete runs. -/
instance instDecidableEqExcept {ε α : Type} [DecidableEq ε] [DecidableEq α] :
    DecidableEq (Except ε α) := fun a b =>
  match a, b with
  | .ok x, .ok y =>
      if h : x = y then .isTrue (by rw [h])
      else .isFalse (fun hh => h (Except.ok.inj hh))
  | .error x, .error y =>
      if h : x = y then .isTrue (by rw [h])
      else .isFalse (fun hh => h (Except.error.inj hh))
  | .ok _, .error _ => .isFalse (fun hh => Except.noConfusion hh)
  | .error _, .ok _ => .isFalse (fun hh => Except.noConfusion hh)

/-! ## Domain entities: `app/domain/entities/lesson.py` -/

/-- The `DifficultyLevel` enum from `app/domain/entities/lesson.py`. -/
inductive DifficultyLevel where
  | beginner
  | intermediate
  | advanced
deriving DecidableEq, Repr, Inhabited

/-- The enum lookup `DifficultyLevel(value)`: succeeds exactly on the three
member values, as in Python where a non-member raises `ValueError`. -/
def DifficultyLevel.ofString? (s : String) : Option DifficultyLevel :=
  if s = "beginner" then some .beginner
  else if s = "intermediate" then some .intermediate
  else if s = "advanced" then some .advanced
  else none

/-- The `QuizQuestion` pydantic model (`app/domain/entities/lesson.py`).
`correct_answer` is a Python `int`, kept as `Int`. -/
structure QuizQuestion where
  question : String
  options : List String
  correct_answer : Int
  explanation : String
deriving DecidableEq, Repr, Inhabited

/-- Construction of a `QuizQuestion`, replaying exactly the declared pydantic
constraints: `options` has `min_items=3, max_items=5` and `correct_answer`
has `ge=0`.  No other constraint is declared on the model (in particular,
nothing compares `correct_answer` with `len(options)`). -/
def QuizQuestion.construct (question : String) (options : List String)
    (correct_answer : Int) (explanation : String) : Except String QuizQuestion :=
  if options.length < 3 then .error "options: ensure this value has at least 3 items"
  else if 5 < options.length then .error "options: ensure this value has at most 5 items"
  else if correct_answer < 0 then .error "correct_answer: ensure this value is greater than or equal to 0"
  else .ok { question := question, options := options,
             correct_answer := correct_answer, explanation := explanation }

/-- The `LearningObjective` pydantic model: two required string fields, no
additional constraint, so construction from strings always succeeds. -/
structure LearningObjective where
  description : String
  key_concept : String
deriving DecidableEq, Repr, Inhabited

/-- The `Example` pydantic model: three required string fields, no additional
constraint. -/
structure Example where
  title : String
  description : String
  key_takeaway : String
deriving DecidableEq, Repr, Inhabited

/-- A Python `dict` as used for a content section (`content_sections` is
`List[dict]` in the domain model; the dictionaries produced by the lesson
body stage carry these keys, each possibly absent). -/
structure SectionDict where
  heading : Option String
  content : Option String
  key_points : Option (List String)
  learning_objectives_covered : Option (List String)
deriving DecidableEq, Repr, Inhabited

/-- The `LessonContent` pydantic model (`app/domain/entities/lesson.py`). -/
structure LessonContent where
  topic : String
  difficulty : DifficultyLevel
  learning_objectives : List LearningObjective
  content_sections : List SectionDict
  examples : List Example
  quiz_questions : List QuizQuestion
  summary : String
  estimated_duration_minutes : Int
deriving DecidableEq, Repr, Inhabited

/-- Validation performed when a `LessonContent` is constructed, replaying the
declared pydantic constraints: `learning_objectives` has
`min_items=1, max_items=5`, `examples` has `min_items=1, max_items=3`,
`quiz_questions` has `min_items=1, max_items=5`,
`estimated_duration_minutes` has `ge=5, le=120`; `content_sections` is an
unconstrained list of dictionaries.  The item models inside the lists are
already validated instances, so only the cardinality bounds remain. -/
def LessonContent.validate (lc : LessonContent) : Except String LessonContent :=
  if lc.learning_objectives.length < 1 then .error "learning_objectives: at least 1 item"
  else if 5 < lc.learning_objectives.length then .error "learning_objectives: at most 5 items"
  else if lc.examples.length < 1 then .error "examples: at least 1 item"
  else if 3 < lc.examples.length then .error "examples: at most 3 items"
  else if lc.quiz_questions.length < 1 then .error "quiz_questions: at least 1 item"
  else if 5 < lc.quiz_questions.length then .error "quiz_questions: at most 5 items"
  else if lc.estimated_duration_minutes < 5 then .error "estimated_duration_minutes: ge 5"
  else if 120 < lc.estimated_duration_minutes then .error "estimated_duration_minutes: le 120"
  else .ok lc

/-- The invariant stated by the spec for `QuizQuestion`:
the stored answer is a valid index into the options list. -/
def QuizQuestion.indexValid (q : QuizQuestion) : Prop :=
  0 ≤ q.correct_answer ∧ q.correct_answer < (q.options.length : Int)

instance (q : QuizQuestion) : Decidable q.indexValid := by
  unfold QuizQuestion.indexValid; infer_instance

/-- A `QuizQuestion` whose `correct_answer` (3) is out of range for its
three options: on the code this construction succeeds. -/
def quizQuestionOutOfRange : QuizQuestion :=
  { question := "q", options := ["a", "b", "c"], correct_answer := 3, explanation := "e" }

/-- C1: the claim says every successfully constructed `QuizQuestion` has
`0 <= correct_answer < len(options)` and that construction fails when
`correct_answer` is not a valid index into `options`.  The model only
declares `ge=0` on `correct_answer`; nothing enforces the upper bound, so
construction with `correct_answer = 3` and three options succeeds and yields
an instance violating the index invariant — directly contradicting both
halves of the claim (and the field's own description, "Index of the correct
answer in the options list"). -/
theorem C1_quiz_question_index_not_enforced :
    QuizQuestion.construct "q" ["a", "b", "c"] 3 "e" = .ok quizQuestionOutOfRange ∧
    ¬ quizQuestionOutOfRange.indexValid := by
  decide

/-! ## Course domain: `app/domain/entities/course.py`

Python dataclasses with field-by-field equality (`@dataclass` generates
`__eq__` comparing the field tuples), hence `DecidableEq` structures. -/

/-- The `Lesson` dataclass. -/
structure Lesson where
  title : String
  summary : String
  objectives : List String
  key_points : List String
deriving DecidableEq, Repr, Inhabited

/-- The `Module` dataclass (named `CourseModule` here because `Module` is taken
by the ambient mathematical library). -/
structure CourseModule where
  title : String
  description : String
  lessons : List Lesson
deriving DecidableEq, Repr, Inhabited

/-- The `Course` dataclass. -/
structure Course where
  topic : String
  modules : List CourseModule
deriving DecidableEq, Repr, Inhabited

/-! ## Course workflow state and agents:
`app/application/workflows/course_generation/state.py` and `agents.py`

The Python `CourseState` holds object references to the current module and
lesson inside `course_structure`; the lessons are mutated in place, so a
reference is faithfully represented by its position: `current_module` is an
index into `course_structure.modules` and `current_lesson` an index into the
current module's `lessons`.  Python's `list.index` (first element comparing
`==`) is `List.indexOf`. -/

/-- The `CourseState` TypedDict from `state.py` (cursor fields as indices, see
above). -/
structure CourseState where
  topic : String
  course_structure : Option Course
  current_module : Option Nat
  current_lesson : Option Nat
  validation_errors : List String
  is_complete : Bool
deriving DecidableEq, Repr, Inhabited

/-- The `ModulePlan` pydantic model from `state.py` (`num_lessons` has
`ge=1, le=10`; the bound is replayed by `CoursePlan.validate` below). -/
structure ModulePlan where
  title : String
  description : String
  learning_objectives : List String
  num_lessons : Nat
deriving DecidableEq, Repr, Inhabited

/-- The `CoursePlan` pydantic model from `state.py`. -/
structure CoursePlan where
  course_title : String
  course_description : String
  modules : List ModulePlan
deriving DecidableEq, Repr, Inhabited

/-- Constraints declared on `CoursePlan` / `ModulePlan`: 1-10 modules, each
with `1 <= num_lessons <= 10`.  A plan returned by the structured-generation
capability satisfies these (pydantic validates on construction). -/
def CoursePlan.Valid (p : CoursePlan) : Prop :=
  1 ≤ p.modules.length ∧ p.modules.length ≤ 10 ∧
    ∀ mp ∈ p.modules, 1 ≤ mp.num_lessons ∧ mp.num_lessons ≤ 10

/-- The `LessonContent` pydantic model from `state.py` (the course pipeline's
generated-content payload; distinct from the domain `LessonContent`). -/
structure GenLessonContent where
  title : String
  summary : String
  objectives : List String
  key_points : List String
deriving DecidableEq, Repr, Inhabited

/-- The `ReviewFeedback` pydantic model from `state.py`. -/
structure ReviewFeedback where
  is_approved : Bool
  feedback : String
  suggestions : List String
deriving DecidableEq, Repr, Inhabited

/-- The deterministic tail of `PlannerAgent.process` (`agents.py` lines
76-106): materialize the module/lesson skeleton from the plan.  Lesson `j`
of a module is created as `Lesson(title=f"Lesson {j+1}",
summary=f"Summary for lesson {j+1} of {module_plan.title}",
objectives=module_plan.learning_objectives,
key_points=[f"Key point {k+1}" for k in range(3)])`. -/
def plannerMaterialize (topic : String) (plan : CoursePlan) : Course :=
  { topic := topic
    modules := plan.modules.map (fun mp =>
      { title := mp.title
        description := mp.description
        lessons := (List.range mp.num_lessons).map (fun j =>
          { title := "Lesson " ++ toString (j + 1)
            summary := "Summary for lesson " ++ toString (j + 1) ++ " of " ++ mp.title
            objectives := mp.learning_objectives
            key_points := (List.range 3).map
              (fun k => "Key point " ++ toString (k + 1)) }) }) }

/-- The state produced by a successful `plan_course` step started from the
initial state of `CourseGenerationWorkflow.generate_course`: only
`course_structure` is filled in. -/
def plannedState (topic : String) (plan : CoursePlan) : CourseState :=
  { topic := topic
    course_structure := some (plannerMaterialize topic plan)
    current_module := none
    current_lesson := none
    validation_errors := []
    is_complete := false }

/-- The fill-and-advance tail of `ContentGeneratorAgent.process` (`agents.py`
lines 130-168), entered when a current lesson is set: write the generated
content into the current lesson (in-place mutation of the shared object,
hence an update of the course structure at the lesson's position), then
advance the cursor with `list.index` lookups, wrapping to the next module
and setting `is_complete` after the last module's last lesson.
Python's `idx < len(xs) - 1` over exact ints is translated as
`idx + 1 < xs.length` (equivalent over the integers, and unaffected by
truncated natural subtraction). -/
def fillAndAdvance (content : GenLessonContent) (course : Course) (mi li : Nat)
    (s : CourseState) : Except String CourseState :=
  match course.modules[mi]? with
  | none => .error "IndexError: module reference out of range"
  | some cm =>
    match cm.lessons[li]? with
    | none => .error "IndexError: lesson reference out of range"
    | some lesson =>
      let lesson' : Lesson := { lesson with
        summary := content.summary
        objectives := content.objectives
        key_points := content.key_points }
      let cm' : CourseModule := { cm with lessons := cm.lessons.set li lesson' }
      let course' : Course := { course with modules := course.modules.set mi cm' }
      let idx := cm'.lessons.indexOf lesson'
      if idx + 1 < cm'.lessons.length then
        .ok { s with course_structure := some course', current_lesson := some (idx + 1) }
      else
        let mIdx := course'.modules.indexOf cm'
        if h : mIdx + 1 < course'.modules.length then
          let nm := course'.modules.get ⟨mIdx + 1, h⟩
          .ok { s with course_structure := some course'
                       current_module := some (mIdx + 1)
                       current_lesson := if nm.lessons.isEmpty then none else some 0 }
        else
          .ok { s with course_structure := some course', is_complete := true }

/-- The `ContentGeneratorAgent.process` (`agents.py` lines 112-170).  The
generated `LessonContent` returned by the structured-generation capability
is a parameter.  Steps: require a course structure; default the current
module to module 0 when unset and modules exist; default the current lesson
to lesson 0 of the current module when unset and the module has lessons
(Python's `and` short-circuits, so the module object is only dereferenced
in that check when the lesson is unset); if a current lesson is set, fill
it and advance, else return the state unchanged. -/
def contentGenProcess (content : GenLessonContent) (s : CourseState) :
    Except String CourseState :=
  match s.course_structure with
  | none => .error "Course structure is required for content generation"
  | some course =>
    let cmIdx : Option Nat :=
      if s.current_module.isNone ∧ ¬course.modules.isEmpty then some 0
      else s.current_module
    match s.current_lesson with
    | none =>
      match cmIdx with
      | none => .error "AttributeError: NoneType object has no attribute lessons"
      | some mi =>
        match course.modules[mi]? with
        | none => .error "IndexError: module reference out of range"
        | some cm =>
          if cm.lessons.isEmpty then
            -- current_lesson stays unset: the fill block is skipped
            .ok { s with current_module := some mi }
          else
            fillAndAdvance content course mi 0
              { s with current_module := some mi, current_lesson := some 0 }
    | some li =>
      match cmIdx with
      | none => .error "AttributeError: NoneType object has no attribute title"
      | some mi =>
        fillAndAdvance content course mi li { s with current_module := some mi }

/-- The `ReviewerAgent.process` (`agents.py` lines 176-224).  The
`ReviewFeedback` returned by the structured-generation capability is a
parameter.  Requires a course structure; with no current lesson the state
passes through; otherwise the review prompt dereferences the current module
and lesson, and when the feedback is not approved exactly one diagnostic
`f"Review for {lesson.title}: {feedback.feedback}"` is appended to
`validation_errors` (the suggestion loop has a `pass` body). -/
def reviewerProcess (feedback : ReviewFeedback) (s : CourseState) :
    Except String CourseState :=
  match s.course_structure with
  | none => .error "Course structure is required for review"
  | some course =>
    match s.current_lesson with
    | none => .ok s
    | some li =>
      match s.current_module with
      | none => .error "AttributeError: NoneType object has no attribute title"
      | some mi =>
        match course.modules[mi]? with
        | none => .error "IndexError: module reference out of range"
        | some cm =>
          match cm.lessons[li]? with
          | none => .error "IndexError: lesson reference out of range"
          | some lesson =>
            if feedback.is_approved then .ok s
            else .ok { s with validation_errors := s.validation_errors ++
              ["Review for " ++ lesson.title ++ ": " ++ feedback.feedback] }

/-- The conditional edge `should_review` after `generate_content`
(`workflow.py` lines 38-42): branch to `review_content` when a current
lesson is set, else loop back to `generate_content`. -/
def shouldReview (s : CourseState) : String :=
  if s.current_lesson.isSome then "review_content" else "generate_content"

/-- The conditional edge `should_continue` after `review_content`
(`workflow.py` lines 54-57). -/
def shouldContinue (s : CourseState) : String :=
  if s.is_complete then "end" else "generate_content"

/-! ## Concrete course-pipeline runs

A freshly planned course with two modules of 2 and 1 lessons, as in the
spec's cursor scenario, stepped through `generate_content` (and once
through `review_content`) with concrete generated payloads. -/

/-- Extract the per-module, per-lesson summaries of a run result. -/
def stateSummaries (r : Except String CourseState) : Option (List (List String)) :=
  match r with
  | .error _ => none
  | .ok s => s.course_structure.map (fun c =>
      c.modules.map (fun m => m.lessons.map (fun l => l.summary)))

/-- Extract the (module, lesson) cursor of a run result. -/
def stateCursor (r : Except String CourseState) : Option (Option Nat × Option Nat) :=
  match r with
  | .error _ => none
  | .ok s => some (s.current_module, s.current_lesson)

/-- Extract the completion flag of a run result. -/
def stateComplete (r : Except String CourseState) : Option Bool :=
  match r with
  | .error _ => none
  | .ok s => some s.is_complete

/-- Extract the error-accumulator of a run result. -/
def stateErrors (r : Except String CourseState) : Option (List String) :=
  match r with
  | .error _ => none
  | .ok s => some s.validation_errors

/-- A concrete generated-lesson payload, tagged so each generation step is
distinguishable. -/
def genContent (n : String) : GenLessonContent :=
  { title := "Generated " ++ n
    summary := "generated summary " ++ n
    objectives := ["generated objective " ++ n]
    key_points := ["generated key point " ++ n] }

/-- The spec scenario's plan: two modules with 2 and 1 lessons. -/
def scenarioPlan : CoursePlan :=
  { course_title := "T"
    course_description := "D"
    modules :=
      [ { title := "M1", description := "First module"
          learning_objectives := ["O1"], num_lessons := 2 }
      , { title := "M2", description := "Second module"
          learning_objectives := ["O2"], num_lessons := 1 } ] }

/-- Freshly planned state for the scenario. -/
def scenarioState0 : CourseState := plannedState "Topic" scenarioPlan

/-- First `generate_content` advance. -/
def scenarioStep1 : Except String CourseState :=
  contentGenProcess (genContent "1") scenarioState0

/-- Second `generate_content` advance. -/
def scenarioStep2 : Except String CourseState :=
  Except.bind scenarioStep1 (contentGenProcess (genContent "2"))

/-- Third `generate_content` advance. -/
def scenarioStep3 : Except String CourseState :=
  Except.bind scenarioStep2 (contentGenProcess (genContent "3"))

/-- A rejecting review feedback. -/
def rejectFeedback : ReviewFeedback :=
  { is_approved := false, feedback := "needs work", suggestions := [] }

/-- C3: on the two-module (2 + 1 lessons) freshly planned course, three
successive `ContentGeneratorAgent.process` advances fill lessons in the
order (module 0, lesson 0), (module 0, lesson 1), (module 1, lesson 0) —
visible in which summaries have been replaced by generated content after
each step — and `is_complete` is false after the first and second advances
and true only after the third. -/
theorem C3_cursor_visits_lessons_in_order :
    stateSummaries scenarioStep1 =
      some [["generated summary 1", "Summary for lesson 2 of M1"],
            ["Summary for lesson 1 of M2"]] ∧
    stateComplete scenarioStep1 = some false ∧
    stateSummaries scenarioStep2 =
      some [["generated summary 1", "generated summary 2"],
            ["Summary for lesson 1 of M2"]] ∧
    stateComplete scenarioStep2 = some false ∧
    stateSummaries scenarioStep3 =
      some [["generated summary 1", "generated summary 2"],
            ["generated summary 3"]] ∧
    stateComplete scenarioStep3 = some true := by
  decide

/-- C2: the claim says the lesson the reviewer evaluates — the state's
`current_lesson` at entry to `ReviewerAgent.process` — is the lesson the
immediately preceding `generate_content` step filled in.  On the code,
`ContentGeneratorAgent.process` advances the cursor after filling, so at
review entry the cursor references the next, not-yet-generated lesson:
after the first advance the filled lesson is (module 0, lesson 0) but the
cursor is (module 0, lesson 1), whose summary is still the planner
placeholder, and a rejecting review consequently records a diagnostic
naming "Lesson 2" although the just-generated lesson was "Lesson 1". -/
theorem C2_reviewer_gets_advanced_cursor :
    stateCursor scenarioStep1 = some (some 0, some 1) ∧
    stateSummaries scenarioStep1 =
      some [["generated summary 1", "Summary for lesson 2 of M1"],
            ["Summary for lesson 1 of M2"]] ∧
    stateErrors (Except.bind scenarioStep1 (reviewerProcess rejectFeedback)) =
      some ["Review for Lesson 2: needs work"] := by
  decide

/-! ## Frame property of the reviewer -/

/-- C9: whenever `ReviewerAgent.process` runs on a state with a course
structure and a current (module, lesson) cursor, its entire effect is on the
error-accumulator: when the feedback is not approved exactly one diagnostic
message is appended to `validation_errors`, and when it is approved nothing
at all changes.  Every other field — topic, course structure, cursor,
completion flag — is untouched (visible in the record update below), so the
review neither blocks progress (`should_continue` keeps reading the
untouched `is_complete`) nor triggers regeneration. -/
theorem C9_reviewer_appends_one_diagnostic
    (fb : ReviewFeedback) (s : CourseState) (c : Course) (cm : CourseModule)
    (lesson : Lesson) (mi li : Nat)
    (hc : s.course_structure = some c)
    (hm : s.current_module = some mi)
    (hl : s.current_lesson = some li)
    (hcm : c.modules[mi]? = some cm)
    (hle : cm.lessons[li]? = some lesson) :
    reviewerProcess fb s = .ok { s with validation_errors :=
      s.validation_errors ++
        (if fb.is_approved then []
         else ["Review for " ++ lesson.title ++ ": " ++ fb.feedback]) } := by
  unfold reviewerProcess
  rw [hc, hl, hm]
  simp only [hcm, hle]
  cases hfb : fb.is_approved <;> simp [hfb, ← hc, ← hm, ← hl]

/-- Concrete lesson for instantiating the reviewer frame theorem. -/
def reviewLesson : Lesson :=
  { title := "L1", summary := "S", objectives := ["o"], key_points := ["k"] }

/-- Concrete module for instantiating the reviewer frame theorem. -/
def reviewModule : CourseModule :=
  { title := "M", description := "D", lessons := [reviewLesson] }

/-- Concrete course for instantiating the reviewer frame theorem. -/
def reviewCourse : Course := { topic := "t", modules := [reviewModule] }

/-- Concrete state (cursor on module 0, lesson 0, one earlier diagnostic)
for instantiating the reviewer frame theorem. -/
def reviewState : CourseState :=
  { topic := "t", course_structure := some reviewCourse
    current_module := some 0, current_lesson := some 0
    validation_errors := ["earlier"], is_complete := false }

/-- Witness for C9 at a concrete state and a rejecting feedback. -/
theorem C9_reviewer_appends_one_diagnostic_witness :
    reviewerProcess rejectFeedback reviewState =
      .ok { reviewState with validation_errors := ["earlier", "Review for L1: needs work"] } := by
  have h := C9_reviewer_appends_one_diagnostic rejectFeedback reviewState
    reviewCourse reviewModule reviewLesson 0 0 rfl rfl rfl rfl rfl
  simpa [rejectFeedback, reviewState, reviewLesson] using h


/-! ## The `should_review` branch after `generate_content` (C5) -/

/-- Helper for C5: once `ContentGeneratorAgent.process` reaches its fill
block (a current lesson is set), the step succeeds and leaves a current
lesson set, provided every module of the course has at least one lesson. -/
theorem fillAndAdvance_cursor_isSome
    (content : GenLessonContent) (course : Course) (mi li : Nat) (s : CourseState)
    (cm : CourseModule) (lesson : Lesson)
    (hcm : course.modules[mi]? = some cm)
    (hle : cm.lessons[li]? = some lesson)
    (hall : ∀ m ∈ course.modules, ¬m.lessons.isEmpty)
    (hcur : s.current_lesson = some li) :
    ∃ s', fillAndAdvance content course mi li s = .ok s' ∧ s'.current_lesson.isSome := by
  have hlen : li < cm.lessons.length := (List.getElem?_eq_some_iff.mp hle).1
  unfold fillAndAdvance
  rw [hcm]
  simp only [hle]
  dsimp only
  split
  · exact ⟨_, rfl, rfl⟩
  · split
    · next h =>
      refine ⟨_, rfl, ?_⟩
      have hmem := List.get_mem _ _ h
      rcases List.mem_or_eq_of_mem_set hmem with hmm | he
      · dsimp only
        rw [if_neg (hall _ hmm)]
        rfl
      · dsimp only
        rw [he]
        have hism : ¬((cm.lessons.set li
            { lesson with summary := content.summary, objectives := content.objectives,
                          key_points := content.key_points }).isEmpty = true) := by
          rw [List.isEmpty_iff_length_eq_zero, List.length_set]
          omega
        rw [if_neg hism]
        rfl
    · refine ⟨_, rfl, ?_⟩
      dsimp only
      rw [hcur]
      rfl

/-- C5: after `plan_course` succeeds every reachable state entering
`generate_content` satisfies these hypotheses: a course structure is
present, it has at least one module (the plan schema requires 1-10
modules), every module has at least one lesson (the plan schema requires
`num_lessons >= 1` and the planner materializes exactly that many lessons),
and the cursor fields, being object references into the structure, are in
range.  Under them every `generate_content` step succeeds and leaves
`current_lesson` set, so `should_review` always answers
`"review_content"`: the loop-back edge from `generate_content` to itself
is never traversed. -/
theorem C5_should_review_always_reviews
    (content : GenLessonContent) (s : CourseState) (c : Course)
    (hc : s.course_structure = some c)
    (hne : ¬c.modules.isEmpty)
    (hall : ∀ m ∈ c.modules, ¬m.lessons.isEmpty)
    (hmi : ∀ mi, s.current_module = some mi → mi < c.modules.length)
    (hli : ∀ li, s.current_lesson = some li →
      ∃ mi cm, s.current_module = some mi ∧ c.modules[mi]? = some cm ∧
        li < cm.lessons.length) :
    ∃ s', contentGenProcess content s = .ok s' ∧ s'.current_lesson.isSome ∧
      shouldReview s' = "review_content" := by
  have conclude : ∀ (r : Except String CourseState),
      (∃ s', r = .ok s' ∧ s'.current_lesson.isSome) →
      ∃ s', r = .ok s' ∧ s'.current_lesson.isSome ∧
        shouldReview s' = "review_content" := by
    rintro r ⟨s', hr, hsome⟩
    exact ⟨s', hr, hsome, by simp [shouldReview, hsome]⟩
  apply conclude
  unfold contentGenProcess
  rw [hc]
  simp only []
  cases hcl : s.current_lesson with
  | none =>
    cases hcmod : s.current_module with
    | none =>
      have h0 : 0 < c.modules.length := by
        rw [List.isEmpty_iff_length_eq_zero] at hne
        omega
      have hles := hall _ (List.getElem_mem h0)
      have hl0 : 0 < c.modules[0].lessons.length := by
        rw [List.isEmpty_iff_length_eq_zero] at hles
        omega
      rw [if_pos (⟨rfl, hne⟩ :
        Option.isNone (none : Option Nat) = true ∧ ¬c.modules.isEmpty = true)]
      simp only [List.getElem?_eq_getElem h0]
      rw [if_neg hles]
      exact fillAndAdvance_cursor_isSome content c 0 0 _ _ _
        (List.getElem?_eq_getElem h0) (List.getElem?_eq_getElem hl0) hall rfl
    | some mi =>
      have hmi' : mi < c.modules.length := hmi mi hcmod
      have hles := hall _ (List.getElem_mem hmi')
      have hl0 : 0 < c.modules[mi].lessons.length := by
        rw [List.isEmpty_iff_length_eq_zero] at hles
        omega
      rw [if_neg (by simp : ¬(Option.isNone (some mi) = true ∧ ¬c.modules.isEmpty = true))]
      simp only [List.getElem?_eq_getElem hmi']
      rw [if_neg hles]
      exact fillAndAdvance_cursor_isSome content c mi 0 _ _ _
        (List.getElem?_eq_getElem hmi') (List.getElem?_eq_getElem hl0) hall rfl
  | some li =>
    obtain ⟨mi, cm, hmod, hcm, hlen⟩ := hli li hcl
    rw [hmod]
    rw [if_neg (by simp : ¬(Option.isNone (some mi) = true ∧ ¬c.modules.isEmpty = true))]
    simp only [hcm]
    exact fillAndAdvance_cursor_isSome content c mi li _ cm _
      hcm (List.getElem?_eq_getElem hlen) hall rfl

/-- Witness for C5 at the freshly planned two-module scenario state. -/
theorem C5_should_review_always_reviews_witness :
    ∃ s', contentGenProcess (genContent "1") scenarioState0 = .ok s' ∧
      s'.current_lesson.isSome ∧ shouldReview s' = "review_content" :=
  C5_should_review_always_reviews (genContent "1") scenarioState0
    (plannerMaterialize "Topic" scenarioPlan)
    rfl
    (by decide)
    (by decide)
    (fun mi h => by simp [scenarioState0, plannedState] at h)
    (fun li h => by simp [scenarioState0, plannedState] at h)

/-! ## Lesson pipeline: `app/application/ai_agents/lesson_content/`

The structured-generation capability (`BaseLLMClient.generate_structured`)
is abstracted as an oracle from the built prompt to a result; every stage
that calls it takes the oracle (or directly its typed result) as a
parameter.  `LessonAssemblerNode` holds the capability (`self.llm`) like
every other node but its `process` override never invokes it. -/

/-- The generation capability as seen by a node: prompt in, raw result or
failure out. -/
def LLMOracle : Type := String → Except String String

/-- Python's `str.lower()` over the basic-latin alphabet (the only case
conversion relevant to the difficulty values), as a character-list map. -/
def pyLower (s : String) : String := String.mk (s.data.map Char.toLower)

/-- A raw objective dictionary as consumed with `.get('description', '')` /
`.get('key_concept', '')`. -/
structure RawObjectiveDict where
  description : Option String
  key_concept : Option String
deriving DecidableEq, Repr, Inhabited

/-- A raw example dictionary as consumed with `.get(..., '')`. -/
structure RawExampleDict where
  title : Option String
  description : Option String
  key_takeaway : Option String
deriving DecidableEq, Repr, Inhabited

/-- A raw quiz-question dictionary as consumed with
`.get('question', '')`, `.get('options', [])`, `.get('correct_answer', 0)`,
`.get('explanation', '')`. -/
structure RawQuizDict where
  question : Option String
  options : Option (List String)
  correct_answer : Option Int
  explanation : Option String
deriving DecidableEq, Repr, Inhabited

/-- The assembler's metadata dictionary as consumed with
`.get('summary', '')` and `.get('estimated_duration_minutes', 30)`. -/
structure RawMetadataDict where
  summary : Option String
  estimated_duration_minutes : Option Int
deriving DecidableEq, Repr, Inhabited

/-- The `LessonAssemblerInput` pydantic model (`lesson_assembler.py`): `topic`
is required, `target_audience` defaults to "beginner", the list and
metadata fields default to empty.  Field presence and types are encoded by
the Lean types, so schema validation of this input always succeeds. -/
structure LessonAssemblerInput where
  topic : String
  target_audience : String
  learning_objectives : List RawObjectiveDict
  content_sections : List SectionDict
  examples : List RawExampleDict
  quiz_questions : List RawQuizDict
  metadata : RawMetadataDict
deriving DecidableEq, Repr, Inhabited

/-- The constant metadata dictionary attached to the assembler's output. -/
structure AssemblerRunMetadata where
  generated_at : String
  components_used : List String
  version : String
deriving DecidableEq, Repr, Inhabited

/-- The `LessonAssemblerOutput` pydantic model. -/
structure LessonAssemblerOutput where
  lesson : LessonContent
  metadata : AssemblerRunMetadata
deriving DecidableEq, Repr, Inhabited

/-- The literal metadata built in `LessonAssemblerNode.process`. -/
def assemblerRunMetadata : AssemblerRunMetadata :=
  { generated_at := "2023-01-01T00:00:00Z"
    components_used := ["learning_objectives", "content_sections", "examples", "quiz_questions"]
    version := "1.0.0" }

/-- The assembler's return step: a validated lesson is wrapped together
with the constant run metadata; a validation failure propagates. -/
def wrapAssembledLesson (r : Except String LessonContent) :
    Except String LessonAssemblerOutput :=
  match r with
  | .error e => .error e
  | .ok lesson => .ok { lesson := lesson, metadata := assemblerRunMetadata }

/-- The `LessonAssemblerNode.process` (`lesson_assembler.py` lines 94-146).
In source order: map the objective dictionaries to `LearningObjective`
instances, the example dictionaries to `Example` instances, the quiz
dictionaries through `QuizQuestion` construction (which can fail on its
declared constraints), then build the `LessonContent`, converting
`target_audience.lower()` (modelled by `pyLower`) through the `DifficultyLevel` enum (raises
`ValueError` on a non-member) and validating the aggregate's declared
constraints; finally wrap the lesson with the constant metadata.  The
generation capability parameter is never consulted. -/
def lessonAssemblerProcess (llm : LLMOracle) (input : LessonAssemblerInput) :
    Except String LessonAssemblerOutput :=
  let learning_objectives : List LearningObjective :=
    input.learning_objectives.map (fun o =>
      { description := o.description.getD "", key_concept := o.key_concept.getD "" })
  let examples : List Example :=
    input.examples.map (fun e =>
      { title := e.title.getD "", description := e.description.getD ""
        key_takeaway := e.key_takeaway.getD "" })
  match input.quiz_questions.mapM (fun q =>
      QuizQuestion.construct (q.question.getD "") (q.options.getD [])
        (q.correct_answer.getD 0) (q.explanation.getD "")) with
  | .error e => .error e
  | .ok quiz_questions =>
    match DifficultyLevel.ofString? (pyLower input.target_audience) with
    | none => .error ("ValueError: '" ++ pyLower input.target_audience ++
        "' is not a valid DifficultyLevel")
    | some difficulty =>
      wrapAssembledLesson (LessonContent.validate
        { topic := input.topic
          difficulty := difficulty
          learning_objectives := learning_objectives
          content_sections := input.content_sections
          examples := examples
          quiz_questions := quiz_questions
          summary := input.metadata.summary.getD ""
          estimated_duration_minutes := input.metadata.estimated_duration_minutes.getD 30 })

/-- C6: the assembler stage makes no call to the generation capability and
is a deterministic pure data transformation: runs under two arbitrary (even
differently behaving) capabilities on identical input dictionaries return
identical results, field-by-field — in particular two runs on the same
input agree. -/
theorem C6_assembler_ignores_llm_and_is_deterministic
    (llm1 llm2 : LLMOracle) (input : LessonAssemblerInput) :
    lessonAssemblerProcess llm1 input = lessonAssemblerProcess llm2 input := rfl

/-- A stub capability, used to instantiate theorems at concrete inputs. -/
def stubLLM : LLMOracle := fun _ => .ok "stub response"

/-- C10: when the lowercased `target_audience` is not one of the three
`DifficultyLevel` members, the assembler fails (the enum conversion — or an
earlier quiz-question constraint — raises) and produces no output, whatever
the rest of the input holds. -/
theorem C10_assembler_rejects_unknown_audience
    (llm : LLMOracle) (input : LessonAssemblerInput)
    (h : pyLower input.target_audience ∉ ["beginner", "intermediate", "advanced"]) :
    ∃ e, lessonAssemblerProcess llm input = .error e := by
  have hnone : DifficultyLevel.ofString? (pyLower input.target_audience) = none := by
    simp only [List.mem_cons, List.not_mem_nil, or_false, not_or] at h
    obtain ⟨h1, h2, h3⟩ := h
    unfold DifficultyLevel.ofString?
    rw [if_neg h1, if_neg h2, if_neg h3]
  unfold lessonAssemblerProcess
  cases hq : input.quiz_questions.mapM (fun q =>
      QuizQuestion.construct (q.question.getD "") (q.options.getD [])
        (q.correct_answer.getD 0) (q.explanation.getD "")) with
  | error e => exact ⟨e, rfl⟩
  | ok quiz_questions =>
    rw [hnone]
    exact ⟨_, rfl⟩

/-- An input whose `target_audience` is "Expert" (not a difficulty level)
but whose other fields are all schema-conforming. -/
def expertAudienceInput : LessonAssemblerInput :=
  { topic := "Intro"
    target_audience := "Expert"
    learning_objectives := [{ description := some "d", key_concept := some "k" }]
    content_sections := [{ heading := some "h", content := some "c"
                           key_points := some [], learning_objectives_covered := some [] }]
    examples := [{ title := some "t", description := some "d", key_takeaway := some "kt" }]
    quiz_questions := [{ question := some "q", options := some ["a", "b", "c"]
                         correct_answer := some 0, explanation := some "e" }]
    metadata := { summary := some "s", estimated_duration_minutes := some 45 } }

/-- Witness for C10 at the concrete "Expert" input. -/
theorem C10_assembler_rejects_unknown_audience_witness :
    ∃ e, lessonAssemblerProcess stubLLM expertAudienceInput = .error e :=
  C10_assembler_rejects_unknown_audience stubLLM expertAudienceInput (by decide)

/-! ## Lesson body stage output and the assembled aggregate (C7) -/

/-- The `LessonSection` pydantic model (`lesson_body.py`). -/
structure LessonSection where
  heading : String
  content : String
  key_points : List String
  learning_objectives_covered : List String
deriving DecidableEq, Repr, Inhabited

/-- The `LessonBodyOutput` pydantic model (`lesson_body.py`): `sections` has
`min_items=3` and `estimated_duration_minutes` has `ge=10, le=120`. -/
structure LessonBodyOutput where
  sections : List LessonSection
  estimated_duration_minutes : Int
  key_terms : List (String × String)
deriving DecidableEq, Repr, Inhabited

/-- The constraints declared on `LessonBodyOutput`; an output produced by
the structured-generation capability satisfies them. -/
def LessonBodyOutput.Valid (o : LessonBodyOutput) : Prop :=
  3 ≤ o.sections.length ∧
    10 ≤ o.estimated_duration_minutes ∧ o.estimated_duration_minutes ≤ 120

instance (o : LessonBodyOutput) : Decidable o.Valid := by
  unfold LessonBodyOutput.Valid; infer_instance

/-- A `LessonSection` model turned into the plain dictionary shape in which
sections travel through the pipeline state into the assembler's
`content_sections` input (one dictionary per section, keys preserved). -/
def sectionToDict (sec : LessonSection) : SectionDict :=
  { heading := some sec.heading
    content := some sec.content
    key_points := some sec.key_points
    learning_objectives_covered := some sec.learning_objectives_covered }

/-- The `LessonContent.validate` never alters the aggregate it accepts. -/
theorem LessonContent.validate_eq_ok {lc lc' : LessonContent}
    (h : lc.validate = .ok lc') : lc' = lc := by
  unfold LessonContent.validate at h
  repeat' split at h
  all_goals first
    | exact (Except.ok.inj h).symm
    | exact Except.noConfusion h

/-- C7: feed the assembler an input whose `topic` is the pipeline's
original topic and whose `content_sections` are the body stage's sections
(O3) rendered as dictionaries — the other components coming from the
remaining stage outputs are arbitrary.  Whenever assembly succeeds, the
assembled `LessonContent` carries the topic verbatim and exactly one
content section per body-stage section. -/
theorem C7_assembled_topic_and_section_count
    (llm : LLMOracle) (topic target_audience : String)
    (O3 : LessonBodyOutput)
    (objs : List RawObjectiveDict) (exs : List RawExampleDict)
    (qs : List RawQuizDict) (meta : RawMetadataDict)
    (hO3 : O3.Valid)
    (out : LessonAssemblerOutput)
    (hok : lessonAssemblerProcess llm
      { topic := topic
        target_audience := target_audience
        learning_objectives := objs
        content_sections := O3.sections.map sectionToDict
        examples := exs
        quiz_questions := qs
        metadata := meta } = .ok out) :
    out.lesson.topic = topic ∧
    out.lesson.content_sections.length = O3.sections.length := by
  unfold lessonAssemblerProcess at hok
  dsimp only at hok
  split at hok
  · exact Except.noConfusion hok
  · split at hok
    · exact Except.noConfusion hok
    · next heq =>
      unfold wrapAssembledLesson at hok
      split at hok
      · exact Except.noConfusion hok
      · next lesson hval =>
        have hout := Except.ok.inj hok
        have hlesson := LessonContent.validate_eq_ok hval
        rw [← hout]
        dsimp only
        rw [hlesson]
        exact ⟨rfl, by dsimp only; rw [List.length_map]⟩

/-- A concrete body-stage output with three sections. -/
def bodyOutputSample : LessonBodyOutput :=
  { sections :=
      [ { heading := "Introduction", content := "c1"
          key_points := ["p1"], learning_objectives_covered := [] }
      , { heading := "Basics", content := "c2"
          key_points := ["p2"], learning_objectives_covered := [] }
      , { heading := "Practice", content := "c3"
          key_points := ["p3"], learning_objectives_covered := [] } ]
    estimated_duration_minutes := 45
    key_terms := [] }

/-- The successful assembly of `bodyOutputSample` with minimal remaining
stage components. -/
def assembledSample : LessonAssemblerOutput :=
  (lessonAssemblerProcess stubLLM
    { topic := "Introduction to Python"
      target_audience := "beginner"
      learning_objectives := [{ description := some "d", key_concept := some "k" }]
      content_sections := bodyOutputSample.sections.map sectionToDict
      examples := [{ title := some "t", description := some "d", key_takeaway := some "kt" }]
      quiz_questions := [{ question := some "q", options := some ["a", "b", "c"]
                           correct_answer := some 0, explanation := some "e" }]
      metadata := { summary := some "s", estimated_duration_minutes := some 45 } }).toOption.getD
    default

/-- Witness for C7 at a concrete successful assembly. -/
theorem C7_assembled_topic_and_section_count_witness :
    assembledSample.lesson.topic = "Introduction to Python" ∧
    assembledSample.lesson.content_sections.length = bodyOutputSample.sections.length :=
  C7_assembled_topic_and_section_count stubLLM "Introduction to Python" "beginner"
    bodyOutputSample
    [{ description := some "d", key_concept := some "k" }]
    [{ title := some "t", description := some "d", key_takeaway := some "kt" }]
    [{ question := some "q", options := some ["a", "b", "c"]
       correct_answer := some 0, explanation := some "e" }]
    { summary := some "s", estimated_duration_minutes := some 45 }
    (by decide)
    assembledSample
    (by decide)

/-! ## Lesson workflow runner and HTTP layer:
`app/application/workflows/lesson_content_workflow/__init__.py` and
`app/interfaces/api/routes/lessons.py` -/

/-- A loose string dictionary, for the intermediate state fields the claims
never inspect (`Dict[str, Any]` payloads). -/
def PyDict : Type := List (String × String)
deriving instance DecidableEq, Inhabited for PyDict

/-- The `metadata` dictionary placed into the initial workflow state. -/
structure WorkflowMetadata where
  workflow_version : String
  model : String
deriving DecidableEq, Repr, Inhabited

/-- The `WorkflowState` TypedDict (`lesson_content_workflow/__init__.py`). -/
structure WorkflowState where
  topic : String
  target_audience : String
  context : Option String
  validated_topic : Option PyDict
  learning_objectives : Option PyDict
  content_sections : Option PyDict
  examples : Option PyDict
  quiz_questions : Option PyDict
  lesson : Option LessonContent
  metadata : WorkflowMetadata
  errors : List String

/-- The initial state built by `LessonContentWorkflow.generate_lesson`. -/
def initialWorkflowState (topic target_audience : String) (context : Option String)
    (model : String) : WorkflowState :=
  { topic := topic
    target_audience := target_audience
    context := context
    validated_topic := none
    learning_objectives := none
    content_sections := none
    examples := none
    quiz_questions := none
    lesson := none
    metadata := { workflow_version := "1.0.0", model := model }
    errors := [] }

/-- A node of the lesson graph: a state transformation that may raise. -/
def WorkflowStage : Type := WorkflowState → Except String WorkflowState

/-- The compiled lesson graph is a straight line
(`validate_topic → generate_objectives → generate_content →
generate_examples → create_quiz → assemble_lesson`), so running it is
sequential composition with any raised failure aborting the run. -/
def runLinearGraph : List WorkflowStage → WorkflowState → Except String WorkflowState
  | [], s => .ok s
  | f :: rest, s =>
    match f s with
    | .error e => .error e
    | .ok s' => runLinearGraph rest s'

/-- The `LessonContentWorkflow.generate_lesson` (lines 120-163): run the graph
on the fresh initial state; on success require a non-empty `lesson` field
(raising `ValueError("Failed to generate lesson content")` otherwise); the
enclosing handler catches any exception `e` and re-raises
`RuntimeError(f"Failed to generate lesson: {str(e)}")` — so every failure
path surfaces as exactly one wrapped error carrying the original text. -/
def generateLessonWorkflow (stages : List WorkflowStage)
    (topic target_audience : String) (context : Option String) (model : String) :
    Except String LessonContent :=
  match runLinearGraph stages (initialWorkflowState topic target_audience context model) with
  | .error e => .error ("Failed to generate lesson: " ++ e)
  | .ok st =>
    match st.lesson with
    | none => .error ("Failed to generate lesson: " ++ "Failed to generate lesson content")
    | some lesson => .ok lesson

/-- The `GenerateLessonRequest` pydantic model (`schemas/lesson.py`). -/
structure GenerateLessonRequest where
  topic : String
  difficulty : DifficultyLevel
  learning_objectives : Option (List String)
  context : Option String
  include_quiz : Bool
  include_examples : Bool
  custom_instructions : Option String
deriving DecidableEq, Repr, Inhabited

/-- The `.value` attribute of the `DifficultyLevel` str-enum. -/
def DifficultyLevel.value : DifficultyLevel → String
  | .beginner => "beginner"
  | .intermediate => "intermediate"
  | .advanced => "advanced"

/-- The `LearningObjectiveResponse` (`schemas/lesson.py`). -/
structure LearningObjectiveResponse where
  description : String
  key_concept : String
deriving DecidableEq, Repr, Inhabited

/-- The `ExampleResponse` (`schemas/lesson.py`). -/
structure ExampleResponse where
  title : String
  description : String
  key_takeaway : String
deriving DecidableEq, Repr, Inhabited

/-- The `QuizQuestionResponse` (`schemas/lesson.py`). -/
structure QuizQuestionResponse where
  question : String
  options : List String
  correct_answer : Int
  explanation : String
deriving DecidableEq, Repr, Inhabited

/-- The `LessonSectionResponse` (`schemas/lesson.py`). -/
structure LessonSectionResponse where
  heading : String
  content : String
  key_points : List String
deriving DecidableEq, Repr, Inhabited

/-- The constant metadata dictionary of the lesson response. -/
structure ResponseMetadata where
  generated_at : String
  version : String
deriving DecidableEq, Repr, Inhabited

/-- The `GenerateLessonResponse` (`schemas/lesson.py`). -/
structure GenerateLessonResponse where
  topic : String
  difficulty : DifficultyLevel
  learning_objectives : List LearningObjectiveResponse
  sections : List LessonSectionResponse
  examples : List ExampleResponse
  quiz_questions : List QuizQuestionResponse
  summary : String
  estimated_duration_minutes : Int
  metadata : ResponseMetadata
deriving DecidableEq, Repr, Inhabited

/-- The helper `_map_lesson_to_response` (`routes/lessons.py` lines 53-84): a full
field-by-field mapping of the domain aggregate into the response shape,
reading section dictionaries with `.get(..., default)`. -/
def mapLessonToResponse (lesson : LessonContent) : GenerateLessonResponse :=
  { topic := lesson.topic
    difficulty := lesson.difficulty
    learning_objectives := lesson.learning_objectives.map (fun o =>
      { description := o.description, key_concept := o.key_concept })
    sections := lesson.content_sections.map (fun sec =>
      { heading := sec.heading.getD "", content := sec.content.getD ""
        key_points := sec.key_points.getD [] })
    examples := lesson.examples.map (fun e =>
      { title := e.title, description := e.description, key_takeaway := e.key_takeaway })
    quiz_questions := lesson.quiz_questions.map (fun q =>
      { question := q.question, options := q.options
        correct_answer := q.correct_answer, explanation := q.explanation })
    summary := lesson.summary
    estimated_duration_minutes := lesson.estimated_duration_minutes
    metadata := { generated_at := "2023-01-01T00:00:00Z", version := "1.0.0" } }

/-- Outcome of an HTTP handler: a body, or an `HTTPException` status with a
detail string. -/
inductive HttpResult where
  | ok (body : GenerateLessonResponse)
  | error (status : Nat) (detail : String)
deriving DecidableEq, Repr, Inhabited

/-- The `POST /lessons/generate` handler `generate_lesson`
(`routes/lessons.py` lines 96-136): build the workflow, call it with the
request's topic, `difficulty.value` as target audience and the optional
context, map a successful result to the response, and turn any exception
`e` into `HTTPException(status_code=500,
detail=f"Failed to generate lesson: {str(e)}")`. -/
def generateLessonRoute (stages : List WorkflowStage)
    (req : GenerateLessonRequest) : HttpResult :=
  match generateLessonWorkflow stages req.topic req.difficulty.value req.context "gpt-4" with
  | .ok lesson => .ok (mapLessonToResponse lesson)
  | .error e => .error 500 ("Failed to generate lesson: " ++ e)

/-- C8: if any stage of the lesson pipeline raises with message `m`, the
pipeline call surfaces exactly one wrapped error whose message extends the
original text `m`, and the HTTP handler answers 500 with a detail wrapping
that message again; likewise when the terminal state lacks a lesson
aggregate.  In both cases the handler returns no (partial) body. -/
theorem C8_failures_wrap_and_return_500
    (stages : List WorkflowStage) (req : GenerateLessonRequest) :
    (∀ m, runLinearGraph stages
        (initialWorkflowState req.topic req.difficulty.value req.context "gpt-4") = .error m →
      generateLessonWorkflow stages req.topic req.difficulty.value req.context "gpt-4" =
        .error ("Failed to generate lesson: " ++ m) ∧
      generateLessonRoute stages req =
        .error 500 ("Failed to generate lesson: " ++ ("Failed to generate lesson: " ++ m))) ∧
    (∀ st, runLinearGraph stages
        (initialWorkflowState req.topic req.difficulty.value req.context "gpt-4") = .ok st →
      st.lesson = none →
      generateLessonWorkflow stages req.topic req.difficulty.value req.context "gpt-4" =
        .error ("Failed to generate lesson: " ++ "Failed to generate lesson content") ∧
      generateLessonRoute stages req =
        .error 500 ("Failed to generate lesson: " ++
          ("Failed to generate lesson: " ++ "Failed to generate lesson content"))) := by
  constructor
  · intro m hrun
    have hw : generateLessonWorkflow stages req.topic req.difficulty.value req.context "gpt-4" =
        .error ("Failed to generate lesson: " ++ m) := by
      unfold generateLessonWorkflow
      rw [hrun]
    exact ⟨hw, by unfold generateLessonRoute; rw [hw]⟩
  · intro st hrun hnone
    have hw : generateLessonWorkflow stages req.topic req.difficulty.value req.context "gpt-4" =
        .error ("Failed to generate lesson: " ++ "Failed to generate lesson content") := by
      unfold generateLessonWorkflow
      rw [hrun]
      simp only [hnone]
    exact ⟨hw, by unfold generateLessonRoute; rw [hw]⟩

/-- A stage that raises, as a failure scenario driver. -/
def boomStage : WorkflowStage := fun _ => .error "boom"

/-- A concrete lesson-generation request. -/
def demoRequest : GenerateLessonRequest :=
  { topic := "Python", difficulty := .beginner, learning_objectives := none
    context := none, include_quiz := true, include_examples := true
    custom_instructions := none }

/-- Witness for C8: a pipeline whose first stage raises "boom" makes the
workflow raise the wrapped message and the handler answer 500. -/
theorem C8_failures_wrap_and_return_500_witness :
    generateLessonWorkflow [boomStage] demoRequest.topic demoRequest.difficulty.value
        demoRequest.context "gpt-4" =
      .error ("Failed to generate lesson: " ++ "boom") ∧
    generateLessonRoute [boomStage] demoRequest =
      .error 500 ("Failed to generate lesson: " ++ ("Failed to generate lesson: " ++ "boom")) :=
  (C8_failures_wrap_and_return_500 [boomStage] demoRequest).1 "boom" rfl

/-! ## HTTP surface registration: `app/main.py` (C4) -/

/-- An HTTP route: method and full path. -/
structure HttpRoute where
  method : String
  path : String
deriving DecidableEq, Repr, Inhabited

/-- A route mounted under a router's path prelude (`APIRouter(prefix=...)`
semantics: the router's string is prepended to the route's path). -/
def mountedRoute (mount : String) (method path : String) : HttpRoute :=
  { method := method, path := mount ++ path }

/-- Routes of the health router (`routes/health.py`, no path prelude):
`GET /health` and `GET /ai/echo`. -/
def healthRouterRoutes : List HttpRoute :=
  [ { method := "GET", path := "/health" }
  , { method := "GET", path := "/ai/echo" } ]

/-- Routes of the courses router (`routes/courses.py`,
`APIRouter(prefix="/api/courses")` with `POST /generate`). -/
def coursesRouterRoutes : List HttpRoute :=
  [mountedRoute "/api/courses" "POST" "/generate"]

/-- Routes of the lessons router (`routes/lessons.py`,
`APIRouter(prefix="/lessons")` with `POST /generate`). -/
def lessonsRouterRoutes : List HttpRoute :=
  [mountedRoute "/lessons" "POST" "/generate"]

/-- The application's route table as assembled in `app/main.py`: exactly
two `include_router` calls, for the health router and the courses router.
No call registers the lessons router. -/
def appRoutes : List HttpRoute := healthRouterRoutes ++ coursesRouterRoutes

/-- C4: the claim says the service's HTTP surface includes
`POST /lessons/generate` because the lessons router is registered on the
application.  The route exists on the lessons router, but `app/main.py`
includes only the health and courses routers, so the application's route
table does not contain `POST /lessons/generate` — a request to it is
answered by the framework's 404, never by the lesson handler (whose
response/500 behavior is proved as C8).  The repository's own integration
tests post to `/lessons/generate` on `app.main.app` and expect 200/500,
contradicting the registration actually performed. -/
theorem C4_lessons_route_not_registered :
    mountedRoute "/lessons" "POST" "/generate" ∈ lessonsRouterRoutes ∧
    mountedRoute "/lessons" "POST" "/generate" ∉ appRoutes := by
  decide
